import Mathlib

/-!
Verification of the pre-delinquency risk prototype
(`src/app_prototype.py`).

Python float arithmetic is modelled over exact rationals `ℚ`; the
`random.uniform(-0.05, 0.05)` draw inside `mock_predict` is modelled as
an explicit `jitter` argument, so every claim about "a jitter value in
[-0.05, 0.05]" quantifies over that argument.
-/

/-- The seven-field input record (the `features` dict assembled by the
UI layer before calling `mock_predict`). -/
structure IndicatorRecord where
  salary_delay_days : ℚ
  savings_drop_pct : ℚ
  utility_payment_delay_days : ℚ
  discretionary_spend_drop_pct : ℚ
  atm_withdrawal_increase : ℚ
  upi_lending_txn_count : ℚ
  failed_autodebit_count : ℚ

/-- The raw weighted sum computed at the start of `mock_predict`
(lines 18-26 of `app_prototype.py`). -/
def rawScore (features : IndicatorRecord) : ℚ :=
  features.salary_delay_days * 0.03 +
  features.savings_drop_pct * 0.4 +
  features.utility_payment_delay_days * 0.02 +
  features.discretionary_spend_drop_pct * 0.2 +
  features.atm_withdrawal_increase * 0.02 +
  features.upi_lending_txn_count * 0.05 +
  features.failed_autodebit_count * 0.08

/-- The level-classification chain of `mock_predict`
(lines 32-39 of `app_prototype.py`). -/
def classifyRiskLevel (risk_score : ℚ) : String :=
  if risk_score ≥ 0.75 then "Critical"
  else if risk_score ≥ 0.5 then "High"
  else if risk_score ≥ 0.25 then "Medium"
  else "Low"

/-- `mock_predict` (lines 15-41 of `app_prototype.py`), with the random
jitter draw passed in explicitly.  Returns the clamped score and the
level label. -/
def mock_predict (features : IndicatorRecord) (jitter : ℚ) : ℚ × String :=
  let risk_score := min 1.0 (rawScore features + jitter)
  (risk_score, classifyRiskLevel risk_score)

/-- `get_recommendation` (lines 43-51 of `app_prototype.py`): the dict
lookup with default "Monitor regularly". -/
def get_recommendation (risk_level : String) : String :=
  if risk_level = "Critical" then
    "Immediate intervention - Offer payment holiday or loan restructuring"
  else if risk_level = "High" then
    "Priority contact - Propose debt consolidation plan"
  else if risk_level = "Medium" then
    "Schedule check-in call - Offer financial counseling"
  else if risk_level = "Low" then
    "Continue standard monitoring"
  else
    "Monitor regularly"

/-- Impact label for `salary_delay_days` (line 179). -/
def impactSalaryDelay (v : ℚ) : String :=
  if v > 15 then "High" else if v > 7 then "Medium" else "Low"

/-- Impact label for `savings_drop_pct` (line 180). -/
def impactSavingsDrop (v : ℚ) : String :=
  if v > 0.5 then "High" else if v > 0.2 then "Medium" else "Low"

/-- Impact label for `utility_payment_delay_days` (line 181). -/
def impactUtilityDelay (v : ℚ) : String :=
  if v > 15 then "High" else if v > 7 then "Medium" else "Low"

/-- Impact label for `discretionary_spend_drop_pct` (line 182). -/
def impactSpendingDrop (v : ℚ) : String :=
  if v > 0.5 then "High" else if v > 0.2 then "Medium" else "Low"

/-- Impact label for `atm_withdrawal_increase` (line 183). -/
def impactAtmIncrease (v : ℚ) : String :=
  if v > 10 then "High" else if v > 5 then "Medium" else "Low"

/-- Impact label for `upi_lending_txn_count` (line 184). -/
def impactUpiLending (v : ℚ) : String :=
  if v > 5 then "High" else if v > 2 then "Medium" else "Low"

/-- Impact label for `failed_autodebit_count` (line 185). -/
def impactFailedDebits (v : ℚ) : String :=
  if v > 2 then "High" else if v > 0 then "Medium" else "Low"

/-- The value of the i-th indicator field, in the order of the
`features` dict / the `Impact` column of `factors_df`. -/
def fieldVal (r : IndicatorRecord) : Fin 7 → ℚ
  | 0 => r.salary_delay_days
  | 1 => r.savings_drop_pct
  | 2 => r.utility_payment_delay_days
  | 3 => r.discretionary_spend_drop_pct
  | 4 => r.atm_withdrawal_increase
  | 5 => r.upi_lending_txn_count
  | 6 => r.failed_autodebit_count

/-- The impact classifier used for the i-th indicator in the `Impact`
column of `factors_df` (lines 178-186). -/
def impactFn : Fin 7 → ℚ → String
  | 0 => impactSalaryDelay
  | 1 => impactSavingsDrop
  | 2 => impactUtilityDelay
  | 3 => impactSpendingDrop
  | 4 => impactAtmIncrease
  | 5 => impactUpiLending
  | 6 => impactFailedDebits

/-- The impact label shown for the i-th indicator: its own classifier
applied to its own raw value. -/
def impactVal (r : IndicatorRecord) (i : Fin 7) : String :=
  impactFn i (fieldVal r i)

/-- The input domains of §3 of the spec, enforced by the slider widgets:
integer fields in their integer ranges, percentage fields in [0,1]. -/
def ValidRecord (r : IndicatorRecord) : Prop :=
  (∃ n : ℕ, r.salary_delay_days = n ∧ n ≤ 30) ∧
  (0 ≤ r.savings_drop_pct ∧ r.savings_drop_pct ≤ 1) ∧
  (∃ n : ℕ, r.utility_payment_delay_days = n ∧ n ≤ 30) ∧
  (0 ≤ r.discretionary_spend_drop_pct ∧ r.discretionary_spend_drop_pct ≤ 1) ∧
  (∃ n : ℕ, r.atm_withdrawal_increase = n ∧ n ≤ 20) ∧
  (∃ n : ℕ, r.upi_lending_txn_count = n ∧ n ≤ 10) ∧
  (∃ n : ℕ, r.failed_autodebit_count = n ∧ n ≤ 5)

/-- Field-wise order on records: every indicator of the first record is
at most the corresponding indicator of the second. -/
def recLE (r s : IndicatorRecord) : Prop :=
  r.salary_delay_days ≤ s.salary_delay_days ∧
  r.savings_drop_pct ≤ s.savings_drop_pct ∧
  r.utility_payment_delay_days ≤ s.utility_payment_delay_days ∧
  r.discretionary_spend_drop_pct ≤ s.discretionary_spend_drop_pct ∧
  r.atm_withdrawal_increase ≤ s.atm_withdrawal_increase ∧
  r.upi_lending_txn_count ≤ s.upi_lending_txn_count ∧
  r.failed_autodebit_count ≤ s.failed_autodebit_count

/-- The all-zero record (every slider at its default). -/
def zeroRecord : IndicatorRecord := ⟨0, 0, 0, 0, 0, 0, 0⟩

/-- The all-maximal record {30, 1.0, 30, 1.0, 20, 10, 5}. -/
def maxRecord : IndicatorRecord := ⟨30, 1, 30, 1, 20, 10, 5⟩

lemma validRecord_fields_nonneg (r : IndicatorRecord) (hr : ValidRecord r) :
    0 ≤ r.salary_delay_days ∧ 0 ≤ r.savings_drop_pct ∧
    0 ≤ r.utility_payment_delay_days ∧ 0 ≤ r.discretionary_spend_drop_pct ∧
    0 ≤ r.atm_withdrawal_increase ∧ 0 ≤ r.upi_lending_txn_count ∧
    0 ≤ r.failed_autodebit_count := by
  obtain ⟨⟨n1, h1, _⟩, ⟨h2, _⟩, ⟨n3, h3, _⟩, ⟨h4, _⟩, ⟨n5, h5, _⟩,
    ⟨n6, h6, _⟩, ⟨n7, h7, _⟩⟩ := hr
  refine ⟨?_, h2, ?_, h4, ?_, ?_, ?_⟩ <;>
    simp only [h1, h3, h5, h6, h7] <;> positivity

lemma rawScore_nonneg (r : IndicatorRecord) (hr : ValidRecord r) :
    0 ≤ rawScore r := by
  obtain ⟨h1, h2, h3, h4, h5, h6, h7⟩ := validRecord_fields_nonneg r hr
  unfold rawScore
  have t1 : 0 ≤ r.salary_delay_days * 0.03 := by positivity
  have t2 : 0 ≤ r.savings_drop_pct * 0.4 := by positivity
  have t3 : 0 ≤ r.utility_payment_delay_days * 0.02 := by positivity
  have t4 : 0 ≤ r.discretionary_spend_drop_pct * 0.2 := by positivity
  have t5 : 0 ≤ r.atm_withdrawal_increase * 0.02 := by positivity
  have t6 : 0 ≤ r.upi_lending_txn_count * 0.05 := by positivity
  have t7 : 0 ≤ r.failed_autodebit_count * 0.08 := by positivity
  linarith

lemma mock_predict_fst (r : IndicatorRecord) (j : ℚ) :
    (mock_predict r j).1 = min 1.0 (rawScore r + j) := rfl

/-- Claim C1: for every record and jitter value, the raw score computed
by `mock_predict` before jitter and clamping is exactly the weighted sum
of the seven indicators with weights 0.03, 0.40, 0.02, 0.20, 0.02,
0.05, 0.08. -/
theorem C1_raw_weighted_sum :
    ∀ (f : IndicatorRecord) (j : ℚ),
      (mock_predict f j).1 = min 1.0 (rawScore f + j) ∧
      rawScore f =
        f.salary_delay_days * 0.03 +
        f.savings_drop_pct * 0.40 +
        f.utility_payment_delay_days * 0.02 +
        f.discretionary_spend_drop_pct * 0.20 +
        f.atm_withdrawal_increase * 0.02 +
        f.upi_lending_txn_count * 0.05 +
        f.failed_autodebit_count * 0.08 := by
  intro f j
  refine ⟨rfl, ?_⟩
  unfold rawScore
  norm_num

/-- Claim C2: the risk level returned by `mock_predict` is the
first-match-wins classification of the clamped score with thresholds
0.75 / 0.5 / 0.25 compared with ≥; exactly 0.75 gives Critical,
0.749999 gives High, exactly 0.5 gives High, exactly 0.25 gives Medium,
and any score below 0.25 gives Low. -/
theorem C2_risk_level_thresholds :
    (∀ (f : IndicatorRecord) (j : ℚ),
      (mock_predict f j).2 = classifyRiskLevel (mock_predict f j).1) ∧
    (∀ s : ℚ, classifyRiskLevel s =
      if s ≥ 0.75 then "Critical"
      else if s ≥ 0.5 then "High"
      else if s ≥ 0.25 then "Medium"
      else "Low") ∧
    classifyRiskLevel 0.75 = "Critical" ∧
    classifyRiskLevel 0.749999 = "High" ∧
    classifyRiskLevel 0.5 = "High" ∧
    classifyRiskLevel 0.25 = "Medium" ∧
    (∀ s : ℚ, s < 0.25 → classifyRiskLevel s = "Low") := by
  refine ⟨fun f j => rfl, fun s => rfl, ?_, ?_, ?_, ?_, ?_⟩
  · unfold classifyRiskLevel
    norm_num
  · unfold classifyRiskLevel
    norm_num
  · unfold classifyRiskLevel
    norm_num
  · unfold classifyRiskLevel
    norm_num
  · intro s hs
    unfold classifyRiskLevel
    rw [if_neg (by norm_num; linarith), if_neg (by norm_num; linarith),
      if_neg (by norm_num; linarith)]

/-- Witness for C2: a concrete score below 0.25 classifies as Low. -/
theorem C2_witness : classifyRiskLevel 0.1 = "Low" :=
  C2_risk_level_thresholds.2.2.2.2.2.2 0.1 (by norm_num)

lemma validRecord_zero : ValidRecord zeroRecord := by
  refine ⟨⟨0, ?_, ?_⟩, ⟨?_, ?_⟩, ⟨0, ?_, ?_⟩, ⟨?_, ?_⟩, ⟨0, ?_, ?_⟩,
    ⟨0, ?_, ?_⟩, ⟨0, ?_, ?_⟩⟩ <;> norm_num [zeroRecord]

lemma validRecord_max : ValidRecord maxRecord := by
  refine ⟨⟨30, ?_, ?_⟩, ⟨?_, ?_⟩, ⟨30, ?_, ?_⟩, ⟨?_, ?_⟩, ⟨20, ?_, ?_⟩,
    ⟨10, ?_, ?_⟩, ⟨5, ?_, ?_⟩⟩ <;> norm_num [maxRecord]

/-- Counterexample to C3: the all-zero record is in the §3 domains and
the jitter -0.05 lies in [-0.05, 0.05], yet the returned risk score is
-0.05 < 0, so the claimed lower bound 0.0 ≤ risk_score fails. -/
theorem C3_counterexample :
    ValidRecord zeroRecord ∧
    (-0.05 : ℚ) ≤ -0.05 ∧ (-0.05 : ℚ) ≤ 0.05 ∧
    ¬ (0 ≤ (mock_predict zeroRecord (-0.05)).1) := by
  refine ⟨validRecord_zero, by norm_num, by norm_num, ?_⟩
  rw [mock_predict_fst]
  unfold rawScore zeroRecord
  norm_num

/-- Claim C3 as amended: for every record in the §3 domains and every
jitter in [-0.05, 0.05], the returned risk score lies in [-0.05, 1.0];
the upper bound 1.0 holds as claimed, but the lower bound is only
-0.05, not 0.0, because no max(0.0, ...) floor is applied. -/
theorem C3_amended_score_bounds (r : IndicatorRecord) (j : ℚ)
    (hr : ValidRecord r) (hj1 : -0.05 ≤ j) (hj2 : j ≤ 0.05) :
    -0.05 ≤ (mock_predict r j).1 ∧ (mock_predict r j).1 ≤ 1 := by
  have hraw := rawScore_nonneg r hr
  rw [mock_predict_fst]
  constructor
  · apply le_min (by norm_num)
    linarith
  · exact le_trans (min_le_left _ _) (by norm_num)

/-- Witness for the amended C3 at the all-zero record with jitter 0. -/
theorem C3_amended_witness :
    -0.05 ≤ (mock_predict zeroRecord 0).1 ∧ (mock_predict zeroRecord 0).1 ≤ 1 :=
  C3_amended_score_bounds zeroRecord 0 validRecord_zero (by norm_num) (by norm_num)

/-- Claim C4: for every record in the §3 domains and every jitter in
[-0.05, 0.05], the returned risk score is at most 1.0 and is computed
as min(1.0, raw + jitter), with no lower floor applied. -/
theorem C4_upper_clamp (r : IndicatorRecord) (j : ℚ)
    (hr : ValidRecord r) (hj1 : -0.05 ≤ j) (hj2 : j ≤ 0.05) :
    (mock_predict r j).1 ≤ 1 ∧
    (mock_predict r j).1 = min 1.0 (rawScore r + j) := by
  refine ⟨?_, mock_predict_fst r j⟩
  rw [mock_predict_fst]
  exact le_trans (min_le_left _ _) (by norm_num)

/-- Witness for C4 at the all-maximal record with jitter 0.05. -/
theorem C4_witness :
    (mock_predict maxRecord 0.05).1 ≤ 1 ∧
    (mock_predict maxRecord 0.05).1 = min 1.0 (rawScore maxRecord + 0.05) :=
  C4_upper_clamp maxRecord 0.05 validRecord_max (by norm_num) (by norm_num)

/-- Claim C5: `get_recommendation` is total: it maps each of the four
defined levels to its fixed string and every other input to the default
"Monitor regularly"; being a function, it is deterministic. -/
theorem C5_recommendation_total :
    ∀ s : String,
      (s = "Critical" → get_recommendation s =
        "Immediate intervention - Offer payment holiday or loan restructuring") ∧
      (s = "High" → get_recommendation s =
        "Priority contact - Propose debt consolidation plan") ∧
      (s = "Medium" → get_recommendation s =
        "Schedule check-in call - Offer financial counseling") ∧
      (s = "Low" → get_recommendation s =
        "Continue standard monitoring") ∧
      (s ≠ "Critical" → s ≠ "High" → s ≠ "Medium" → s ≠ "Low" →
        get_recommendation s = "Monitor regularly") := by
  intro s
  refine ⟨?_, ?_, ?_, ?_, ?_⟩ <;> intro h
  · rw [h]
    rfl
  · rw [h]
    rfl
  · rw [h]
    rfl
  · rw [h]
    rfl
  · intro h2 h3 h4
    unfold get_recommendation
    rw [if_neg h, if_neg h2, if_neg h3, if_neg h4]

/-- An out-of-domain level label, used to exercise the default branch. -/
def unknownLevel : String := "Severe"

/-- Witness for C5: the default branch at a concrete unmapped label. -/
theorem C5_witness : get_recommendation unknownLevel = "Monitor regularly" :=
  (C5_recommendation_total unknownLevel).2.2.2.2
    (by decide) (by decide) (by decide) (by decide)

/-- Claim C6: each indicator's impact label is a three-tier function of
that indicator's raw value alone, High first then Medium then Low with
strict > comparisons at the exact thresholds 15/7, 0.5/0.2, 15/7,
0.5/0.2, 10/5, 5/2, 2/0; in particular salary_delay_days = 16 gives
High, 8 gives Medium, 7 gives Low. -/
theorem C6_impact_thresholds :
    (∀ v : ℚ, impactSalaryDelay v =
      if v > 15 then "High" else if v > 7 then "Medium" else "Low") ∧
    (∀ v : ℚ, impactSavingsDrop v =
      if v > 0.5 then "High" else if v > 0.2 then "Medium" else "Low") ∧
    (∀ v : ℚ, impactUtilityDelay v =
      if v > 15 then "High" else if v > 7 then "Medium" else "Low") ∧
    (∀ v : ℚ, impactSpendingDrop v =
      if v > 0.5 then "High" else if v > 0.2 then "Medium" else "Low") ∧
    (∀ v : ℚ, impactAtmIncrease v =
      if v > 10 then "High" else if v > 5 then "Medium" else "Low") ∧
    (∀ v : ℚ, impactUpiLending v =
      if v > 5 then "High" else if v > 2 then "Medium" else "Low") ∧
    (∀ v : ℚ, impactFailedDebits v =
      if v > 2 then "High" else if v > 0 then "Medium" else "Low") ∧
    (∀ r : IndicatorRecord,
      impactVal r 0 = impactSalaryDelay r.salary_delay_days ∧
      impactVal r 1 = impactSavingsDrop r.savings_drop_pct ∧
      impactVal r 2 = impactUtilityDelay r.utility_payment_delay_days ∧
      impactVal r 3 = impactSpendingDrop r.discretionary_spend_drop_pct ∧
      impactVal r 4 = impactAtmIncrease r.atm_withdrawal_increase ∧
      impactVal r 5 = impactUpiLending r.upi_lending_txn_count ∧
      impactVal r 6 = impactFailedDebits r.failed_autodebit_count) ∧
    impactSalaryDelay 16 = "High" ∧
    impactSalaryDelay 8 = "Medium" ∧
    impactSalaryDelay 7 = "Low" := by
  refine ⟨fun v => rfl, fun v => rfl, fun v => rfl, fun v => rfl,
    fun v => rfl, fun v => rfl, fun v => rfl,
    fun r => ⟨rfl, rfl, rfl, rfl, rfl, rfl, rfl⟩, ?_, ?_, ?_⟩ <;> decide

/-- Claim C7: on the all-maximal record with the jitter fixed at 0, the
raw weighted sum is 3.4, the clamped risk score is 1.0, the level is
Critical, the recommendation is the Critical string, and all seven
impact labels are High. -/
theorem C7_maximal_scenario :
    rawScore maxRecord = 3.4 ∧
    (mock_predict maxRecord 0).1 = 1 ∧
    (mock_predict maxRecord 0).2 = "Critical" ∧
    get_recommendation (mock_predict maxRecord 0).2 =
      "Immediate intervention - Offer payment holiday or loan restructuring" ∧
    (∀ i : Fin 7, impactVal maxRecord i = "High") := by
  have hraw : rawScore maxRecord = 3.4 := by
    unfold rawScore maxRecord
    norm_num
  have hfst : (mock_predict maxRecord 0).1 = 1 := by
    rw [mock_predict_fst, hraw]
    norm_num
  have hsnd : (mock_predict maxRecord 0).2 = "Critical" := by
    show classifyRiskLevel (mock_predict maxRecord 0).1 = "Critical"
    rw [hfst]
    unfold classifyRiskLevel
    norm_num
  refine ⟨hraw, hfst, hsnd, ?_, ?_⟩
  · rw [hsnd]
    rfl
  · intro i
    fin_cases i <;>
      norm_num [impactVal, impactFn, fieldVal, maxRecord, impactSalaryDelay,
        impactSavingsDrop, impactUtilityDelay, impactSpendingDrop,
        impactAtmIncrease, impactUpiLending, impactFailedDebits]

/-- Claim C8: the impact label of each indicator depends only on that
indicator's own value: two records that agree on all indicators other
than the i-th get identical impact labels on those indicators. -/
theorem C8_impact_independence (r s : IndicatorRecord) (i : Fin 7)
    (h : ∀ j : Fin 7, j ≠ i → fieldVal r j = fieldVal s j) :
    ∀ j : Fin 7, j ≠ i → impactVal r j = impactVal s j := by
  intro j hj
  unfold impactVal
  rw [h j hj]

/-- A record that differs from the all-zero record only in the first
indicator, used to exercise impact independence. -/
def salaryOnlyRecord : IndicatorRecord := ⟨16, 0, 0, 0, 0, 0, 0⟩

/-- Witness for C8: changing only salary_delay_days (index 0) leaves
the savings_drop_pct impact label (index 1) unchanged. -/
theorem C8_witness : impactVal salaryOnlyRecord 1 = impactVal zeroRecord 1 :=
  C8_impact_independence salaryOnlyRecord zeroRecord 0
    (by decide) 1 (by decide)

/-- Counterexample to C9: on the all-maximal record (in the §3 domains)
with jitter 0 (inside [-0.05, 0.05]), the returned score is 1.0 while
raw + jitter is 3.4, so the score falls strictly below raw + jitter,
refuting the conjunct that it never does. -/
theorem C9_counterexample :
    ValidRecord maxRecord ∧
    (-0.05 : ℚ) ≤ 0 ∧ (0 : ℚ) ≤ 0.05 ∧
    (mock_predict maxRecord 0).1 < rawScore maxRecord + 0 := by
  refine ⟨validRecord_max, by norm_num, by norm_num, ?_⟩
  rw [mock_predict_fst]
  unfold rawScore maxRecord
  norm_num

/-- Claim C9 as amended: for every record in the §3 domains and jitter
in [-0.05, 0.05], the score is at least -0.05, the score can be
negative only when the raw sum is below 0.05, and the score equals
raw + jitter whenever raw + jitter ≤ 1 (so it drops below raw + jitter
only through the upper clamp at 1.0). -/
theorem C9_amended_lower_bound (r : IndicatorRecord) (j : ℚ)
    (hr : ValidRecord r) (hj1 : -0.05 ≤ j) (hj2 : j ≤ 0.05) :
    -0.05 ≤ (mock_predict r j).1 ∧
    ((mock_predict r j).1 < 0 → rawScore r < 0.05) ∧
    (rawScore r + j ≤ 1 → (mock_predict r j).1 = rawScore r + j) := by
  have hraw := rawScore_nonneg r hr
  rw [mock_predict_fst]
  refine ⟨?_, ?_, ?_⟩
  · apply le_min (by norm_num)
    linarith
  · intro hneg
    rcases min_lt_iff.mp hneg with h1 | h2
    · norm_num at h1
    · linarith
  · intro hle
    apply min_eq_right
    exact le_trans hle (by norm_num)

/-- Witness for the amended C9 at the all-zero record with jitter
-0.05: the score is exactly raw + jitter = -0.05. -/
theorem C9_amended_witness :
    -0.05 ≤ (mock_predict zeroRecord (-0.05)).1 ∧
    ((mock_predict zeroRecord (-0.05)).1 < 0 → rawScore zeroRecord < 0.05) ∧
    (rawScore zeroRecord + -0.05 ≤ 1 →
      (mock_predict zeroRecord (-0.05)).1 = rawScore zeroRecord + -0.05) :=
  C9_amended_lower_bound zeroRecord (-0.05) validRecord_zero
    (by norm_num) (by norm_num)

/-- Claim C10: for a fixed jitter, the returned risk score is monotone
non-decreasing in the indicators: a field-wise larger record never gets
a smaller score. -/
theorem C10_score_monotone (r s : IndicatorRecord) (j : ℚ)
    (h : recLE r s) :
    (mock_predict r j).1 ≤ (mock_predict s j).1 := by
  obtain ⟨h1, h2, h3, h4, h5, h6, h7⟩ := h
  rw [mock_predict_fst, mock_predict_fst]
  apply min_le_min (le_refl _)
  have hraw : rawScore r ≤ rawScore s := by
    unfold rawScore
    have t1 : r.salary_delay_days * 0.03 ≤ s.salary_delay_days * 0.03 := by
      apply mul_le_mul_of_nonneg_right h1
      norm_num
    have t2 : r.savings_drop_pct * 0.4 ≤ s.savings_drop_pct * 0.4 := by
      apply mul_le_mul_of_nonneg_right h2
      norm_num
    have t3 : r.utility_payment_delay_days * 0.02 ≤
        s.utility_payment_delay_days * 0.02 := by
      apply mul_le_mul_of_nonneg_right h3
      norm_num
    have t4 : r.discretionary_spend_drop_pct * 0.2 ≤
        s.discretionary_spend_drop_pct * 0.2 := by
      apply mul_le_mul_of_nonneg_right h4
      norm_num
    have t5 : r.atm_withdrawal_increase * 0.02 ≤
        s.atm_withdrawal_increase * 0.02 := by
      apply mul_le_mul_of_nonneg_right h5
      norm_num
    have t6 : r.upi_lending_txn_count * 0.05 ≤
        s.upi_lending_txn_count * 0.05 := by
      apply mul_le_mul_of_nonneg_right h6
      norm_num
    have t7 : r.failed_autodebit_count * 0.08 ≤
        s.failed_autodebit_count * 0.08 := by
      apply mul_le_mul_of_nonneg_right h7
      norm_num
    linarith
  linarith

/-- Witness for C10: the all-zero record scores no higher than the
all-maximal record at jitter 0. -/
theorem C10_witness :
    (mock_predict zeroRecord 0).1 ≤ (mock_predict maxRecord 0).1 :=
  C10_score_monotone zeroRecord maxRecord 0
    (by unfold recLE zeroRecord maxRecord; norm_num)
